import Mathlib

/-!
Verification of the Legal Agent pipeline (src/Law_agent.py).

The development shallowly embeds the parts of the script that the claims
are about:

* the document chunking configuration (sidebar, lines 37-38; DocumentChunking,
  lines 57-60) together with a chunker modelled from the spec, because the
  chunking algorithm itself lives in the external phi library;
* the upload / indexing handler and the session state (lines 24-67);
* the guard that constructs the four agents and renders the analysis UI
  (lines 70 and 141);
* the query orchestration get_response (lines 127-138) and the Analyze
  button flow with its three output tabs (lines 172-198).

Model-call failures (exceptions raised by agent.run) are embedded as
Except values; the agents themselves are parameters of the orchestration
functions, so theorems quantify over arbitrary deterministic agent behavior.
-/

/-- Auxiliary chunker with explicit fuel so that it is structural and the
kernel can evaluate it. The fuel is instantiated with the document length. -/
def docChunkingAux (chunk_size overlap : Nat) : Nat → List Char → List (List Char)
  | 0, _ => []
  | fuel + 1, doc =>
    if chunk_size ≤ overlap then [doc]
    else if doc.length = 0 then []
    else if doc.length ≤ chunk_size then [doc]
    else doc.take chunk_size :: docChunkingAux chunk_size overlap fuel (doc.drop (chunk_size - overlap))

/-- Modelled from the spec: the chunking strategy DocumentChunking(chunk_size,
overlap) configured at src/Law_agent.py lines 57-60 is implemented by the
external phi library, so its algorithm is not part of this repository. Per the
spec (section 4.1), indexing splits the extracted text into chunks of
chunk_size characters, consecutive chunks sharing overlap characters, the last
chunk possibly shorter. Inputs outside the spec precondition
1 <= overlap < chunk_size are given a harmless total behavior. -/
def docChunking (chunk_size overlap : Nat) (doc : List Char) : List (List Char) :=
  docChunkingAux chunk_size overlap doc.length doc

/-- A PDFKnowledgeBase handle as constructed at src/Law_agent.py lines 53-61:
the temp-file path (whose bytes are the uploaded content), and the
DocumentChunking parameters. -/
structure KB where
  path : String
  chunk_size : Nat
  overlap : Nat
deriving DecidableEq, Repr

structure UploadedFile where
  name : String
  content : String
deriving DecidableEq, Repr

/-- Outcome of one pass through the sidebar upload handler: the handler is
skipped when the file name was already processed (line 46), shows a success
message (line 65), or shows an error message in the except branch (line 67). -/
inductive UploadOutcome
  | skipped
  | success
  | errorShown
deriving DecidableEq, Repr

/-- Streamlit session state of src/Law_agent.py lines 24-32. The vector_db
collection contents are modelled from the spec as per-document chunk sets,
because ChromaDb is an external service; knowledge_base and processed_files
are the session keys initialized at lines 28-32. -/
structure SessionState where
  collection : List (String × List (List Char))
  knowledge_base : Option KB
  processed_files : List String
deriving DecidableEq, Repr

/-- Initial session state (lines 24-32): empty collection, knowledge_base is
None, processed_files is the empty set. -/
def initState : SessionState :=
  { collection := [], knowledge_base := none, processed_files := [] }

/-- Upload handler, src/Law_agent.py lines 45-67. If the file name is already
in processed_files the whole body is skipped (line 46). Otherwise the bytes
are written to a temp file, a PDFKnowledgeBase is assigned to
st.session_state.knowledge_base (lines 53-61), and kb.load(recreate=True,
upsert=True) runs (line 62); only on success is the name added to
processed_files (line 63). The except branch (lines 66-67) shows an error and
leaves the rest of the state as the try block left it, with knowledge_base
already reassigned. The load call is library code, so its effect on the
store is modelled from the spec (section 4.1): successful extraction upserts
the chunk set for the document identifier, fully replacing any prior set;
failed extraction leaves the store unchanged. The extractOk argument is the
oracle for whether text extraction inside load succeeds. -/
def uploadStep (s : SessionState) (f : UploadedFile) (chunk_size_in overlap_in : Nat)
    (extractOk : Bool) : SessionState × UploadOutcome :=
  if f.name ∈ s.processed_files then (s, UploadOutcome.skipped)
  else
    let kb : KB := { path := f.content, chunk_size := chunk_size_in, overlap := overlap_in }
    if extractOk then
      ({ collection :=
            (f.name, docChunking chunk_size_in overlap_in f.content.toList)
              :: s.collection.filter (fun e => e.1 != f.name),
         knowledge_base := some kb,
         processed_files := f.name :: s.processed_files },
       UploadOutcome.success)
    else
      ({ s with knowledge_base := some kb }, UploadOutcome.errorShown)

/-- Sidebar widget bound for the chunk size (line 37): min_value=1,
max_value=5000. -/
def chunkSizeInRange (v : Nat) : Prop := 1 ≤ v ∧ v ≤ 5000

/-- Sidebar widget bound for the overlap (line 38): min_value=1,
max_value=1000. -/
def overlapInRange (v : Nat) : Prop := 1 ≤ v ∧ v ≤ 1000

instance (v : Nat) : Decidable (chunkSizeInRange v) := by
  unfold chunkSizeInRange; infer_instance

instance (v : Nat) : Decidable (overlapInRange v) := by
  unfold overlapInRange; infer_instance

/-- Line 70: the four agents are constructed only under
`if st.session_state.knowledge_base:`; in Python, None is falsy and any
PDFKnowledgeBase object is truthy. -/
def agentsConstructed (s : SessionState) : Bool := s.knowledge_base.isSome

/-- Line 141: the analysis-type selector and the Analyze button are rendered
only under the same `if st.session_state.knowledge_base:` guard. -/
def analysisUIRendered (s : SessionState) : Bool := s.knowledge_base.isSome

/-- Concrete uploaded document used in counterexamples and witnesses. -/
def fileB : UploadedFile := { name := "contract.pdf", content := "abcdef" }

/-- Second concrete uploaded document. -/
def fileC : UploadedFile := { name := "lease.pdf", content := "abcdefghij" }
/-- Failure of a model call: agent.run raising an exception (for example the
model service being unavailable), embedded as an Except error value. -/
structure InferenceError where
  msg : String
deriving DecidableEq, Repr

inductive AgentName
  | legalResearcher
  | contractAnalyst
  | strategyAgent
  | teamLead
deriving DecidableEq, Repr

/-- The four agents constructed at src/Law_agent.py lines 71-125, each
reduced to its query-to-response behavior; the role configuration (model id,
instructions, tools, knowledge access) determines the opaque function. -/
structure Agents where
  legal_researcher : String → Except InferenceError String
  contract_analyst : String → Except InferenceError String
  strategy_agent : String → Except InferenceError String
  team_lead : String → Except InferenceError String

/-- The f-string built at lines 132-136 and passed to team_lead.run. -/
def synthesisPrompt (research_response contract_response strategy_response : String) : String :=
  "Summarize and integrate the following insights gathered using the full contract data:\n\n" ++
  "Legal Researcher Response:\n" ++ research_response ++ "\n" ++
  "Contract Analyst Response:\n" ++ contract_response ++ "\n" ++
  "Legal Strategy Response:\n" ++ strategy_response ++ "\n" ++
  "Provide a structured legal analysis report that includes key terms, obligations, potential risks and recommendations with references to the document."

/-- The synthesis input exactly as the claim words it (spec section 4.6): the
three responses concatenated with their labeled headers and nothing else.
Defined from the words of the spec, to be compared with the prompt the code
actually builds. -/
def labeledConcatSpec (r c s : String) : String :=
  "Legal Researcher Response: " ++ r ++ "\n" ++
  "Contract Analyst Response: " ++ c ++ "\n" ++
  "Legal Strategy Response: " ++ s

/-- get_response, lines 127-138: the three analysis agents run sequentially on
the query, then team_lead runs once on the synthesis prompt. The second
component records the exact sequence of agent.run calls with the text passed
to each; an exception from any run aborts the function at that point and
propagates to the caller. -/
def get_response (ag : Agents) (query : String) :
    Except InferenceError String × List (AgentName × String) :=
  match ag.legal_researcher query with
  | Except.error e => (Except.error e, [(AgentName.legalResearcher, query)])
  | Except.ok research_response =>
    match ag.contract_analyst query with
    | Except.error e =>
        (Except.error e,
         [(AgentName.legalResearcher, query), (AgentName.contractAnalyst, query)])
    | Except.ok contract_response =>
      match ag.strategy_agent query with
      | Except.error e =>
          (Except.error e,
           [(AgentName.legalResearcher, query), (AgentName.contractAnalyst, query),
            (AgentName.strategyAgent, query)])
      | Except.ok strategy_response =>
          (ag.team_lead (synthesisPrompt research_response contract_response strategy_response),
           [(AgentName.legalResearcher, query), (AgentName.contractAnalyst, query),
            (AgentName.strategyAgent, query),
            (AgentName.teamLead,
             synthesisPrompt research_response contract_response strategy_response)])

/-- Prompt of the Key Points tab, line 189. -/
def keyPointsPrompt (report : String) : String :=
  "Summarize the key legal points from this analysis:\n" ++ report

/-- Prompt of the Recommendations tab, line 196. -/
def recommendationsPrompt (report : String) : String :=
  "Provide specific legal recommendations based on this analysis:\n" ++ report

/-- Placeholder of the Analysis tab, line 184. -/
def noResponseMsg : String := "No response generated."

/-- Placeholder of the Key Points tab, line 191. -/
def noSummaryMsg : String := "No summary generated."

/-- Placeholder of the Recommendations tab, line 198. -/
def noRecommendationsMsg : String := "No recommendations generated."

inductive Tab
  | analysis
  | keyPoints
  | recommendations
deriving DecidableEq, Repr

/-- What one Analyze click leaves on screen: whether the blank-query warning
was shown, the markdown rendered in each tab, and the propagated exception if
a run raised one (Streamlit then shows the traceback: the query failed). -/
structure AnalyzeOutput where
  warned : Bool
  rendered : List (Tab × String)
  failed : Option InferenceError
deriving DecidableEq, Repr

/-- The Analyze button handler, lines 172-198. In Python `not query` is true
exactly for the empty string, so only an empty query triggers the warning
(line 174). Otherwise get_response runs, and then the bodies of all three
tabs execute in order: st.tabs renders every tab body on each script run, so
the Key Points and Recommendations team_lead calls are unconditional. Each
tab shows its markdown text, or its placeholder when the text is empty
(Python truthiness of str at lines 184, 191, 198). -/
def analyzeClick (ag : Agents) (query : String) :
    AnalyzeOutput × List (AgentName × String) :=
  if query = "" then ({ warned := true, rendered := [], failed := none }, [])
  else
    match get_response ag query with
    | (Except.error e, log) =>
        ({ warned := false, rendered := [], failed := some e }, log)
    | (Except.ok report, log) =>
      let shown0 := if report = "" then noResponseMsg else report
      match ag.team_lead (keyPointsPrompt report) with
      | Except.error e =>
          ({ warned := false, rendered := [(Tab.analysis, shown0)], failed := some e },
           log ++ [(AgentName.teamLead, keyPointsPrompt report)])
      | Except.ok key_points =>
        let shown1 := if key_points = "" then noSummaryMsg else key_points
        match ag.team_lead (recommendationsPrompt report) with
        | Except.error e =>
            ({ warned := false,
               rendered := [(Tab.analysis, shown0), (Tab.keyPoints, shown1)],
               failed := some e },
             log ++ [(AgentName.teamLead, keyPointsPrompt report),
                     (AgentName.teamLead, recommendationsPrompt report)])
        | Except.ok recommendations =>
            let shown2 := if recommendations = "" then noRecommendationsMsg else recommendations
            ({ warned := false,
               rendered := [(Tab.analysis, shown0), (Tab.keyPoints, shown1),
                            (Tab.recommendations, shown2)],
               failed := none },
             log ++ [(AgentName.teamLead, keyPointsPrompt report),
                     (AgentName.teamLead, recommendationsPrompt report)])

/-- The Analyze flow together with the set of output views the user actually
looks at. Which tab is selected is client-side state that Streamlit never
exposes to the script, and lines 180-198 contain no branch on it, so the
handler ignores this argument entirely. -/
def analyzeClickWithSelection (ag : Agents) (query : String) (_selectedTabs : List Tab) :
    AnalyzeOutput × List (AgentName × String) :=
  analyzeClick ag query

/-- Fixed text returned by the stub Legal Researcher. -/
def stubResearchText : String := "stub research"

/-- Fixed text returned by the stub Contract Analyst. -/
def stubContractText : String := "stub contract"

/-- Fixed text returned by the stub Legal Strategy agent. -/
def stubStrategyText : String := "stub strategy"

/-- Fixed text returned by the stub Team Lead. -/
def stubReportText : String := "stub report"

/-- Deterministic stub agents returning fixed texts. -/
def stubAgents : Agents :=
  { legal_researcher := fun _ => Except.ok stubResearchText,
    contract_analyst := fun _ => Except.ok stubContractText,
    strategy_agent := fun _ => Except.ok stubStrategyText,
    team_lead := fun _ => Except.ok stubReportText }

/-- A concrete inference failure. -/
def stubError : InferenceError := { msg := "model service unavailable" }

/-- Stub agents whose Legal Researcher call raises an InferenceError. -/
def failingAgents : Agents :=
  { legal_researcher := fun _ => Except.error stubError,
    contract_analyst := fun _ => Except.ok stubContractText,
    strategy_agent := fun _ => Except.ok stubStrategyText,
    team_lead := fun _ => Except.ok stubReportText }

/-- The empty string, the falsy response content. -/
def emptyText : String := ""

/-- Stub agents whose calls all return empty text. -/
def emptyReplyAgents : Agents :=
  { legal_researcher := fun _ => Except.ok emptyText,
    contract_analyst := fun _ => Except.ok emptyText,
    strategy_agent := fun _ => Except.ok emptyText,
    team_lead := fun _ => Except.ok emptyText }

/-- A concrete nonempty query. -/
def queryA : String := "analyze the contract"

/-- A whitespace-only query: blank to the user, truthy to Python. -/
def wsQuery : String := " "

lemma docChunkingAux_nil (cs ov f : Nat) (h : ¬ cs ≤ ov) :
    docChunkingAux cs ov f [] = [] := by
  cases f <;> simp [docChunkingAux, h]

lemma docChunkingAux_fuel (cs ov : Nat) (h : ov < cs) :
    ∀ (f1 f2 : Nat) (doc : List Char), doc.length ≤ f1 → doc.length ≤ f2 →
      docChunkingAux cs ov f1 doc = docChunkingAux cs ov f2 doc := by
  intro f1
  induction f1 with
  | zero =>
    intro f2 doc h1 _h2
    have hd : doc = [] := List.length_eq_zero.mp (Nat.le_zero.mp h1)
    subst hd
    rw [docChunkingAux_nil cs ov 0 (by omega), docChunkingAux_nil cs ov f2 (by omega)]
  | succ n ih =>
    intro f2 doc h1 h2
    cases hd : doc with
    | nil =>
      rw [docChunkingAux_nil cs ov (n + 1) (by omega), docChunkingAux_nil cs ov f2 (by omega)]
    | cons a tl =>
      subst hd
      cases f2 with
      | zero => simp at h2
      | succ m =>
        simp only [docChunkingAux]
        rw [if_neg (by omega : ¬ cs ≤ ov), if_neg (by omega : ¬ cs ≤ ov)]
        by_cases hz : (a :: tl).length = 0
        · simp at hz
        · rw [if_neg hz, if_neg hz]
          by_cases hle : (a :: tl).length ≤ cs
          · rw [if_pos hle, if_pos hle]
          · rw [if_neg hle, if_neg hle]
            congr 1
            apply ih
            · rw [List.length_drop]
              simp only [List.length_cons] at h1 hle ⊢
              omega
            · rw [List.length_drop]
              simp only [List.length_cons] at h2 hle ⊢
              omega

lemma docChunking_small (cs ov : Nat) (h : ov < cs) (doc : List Char)
    (hlen : doc.length ≤ cs) (hne : doc ≠ []) :
    docChunking cs ov doc = [doc] := by
  unfold docChunking
  cases hL : doc.length with
  | zero => exact absurd (List.length_eq_zero.mp hL) hne
  | succ m =>
    simp only [docChunkingAux]
    rw [if_neg (by omega : ¬ cs ≤ ov), if_neg (by omega : ¬ doc.length = 0), if_pos hlen]

lemma docChunking_large (cs ov : Nat) (h : ov < cs) (doc : List Char)
    (hlen : cs < doc.length) :
    docChunking cs ov doc = doc.take cs :: docChunking cs ov (doc.drop (cs - ov)) := by
  unfold docChunking
  cases hL : doc.length with
  | zero => omega
  | succ m =>
    simp only [docChunkingAux]
    rw [if_neg (by omega : ¬ cs ≤ ov), if_neg (by omega : ¬ doc.length = 0),
      if_neg (by omega : ¬ doc.length ≤ cs)]
    congr 1
    apply docChunkingAux_fuel cs ov h
    · rw [List.length_drop]; omega
    · rw [List.length_drop]

lemma docChunking_getD (cs ov : Nat) (h : ov < cs) :
    ∀ (N : Nat) (doc : List Char), doc.length ≤ N →
      ∀ i, i < (docChunking cs ov doc).length →
        (docChunking cs ov doc).getD i [] = (doc.drop (i * (cs - ov))).take cs := by
  intro N
  induction N with
  | zero =>
    intro doc hN i hi
    have hd : doc = [] := List.length_eq_zero.mp (Nat.le_zero.mp hN)
    subst hd
    unfold docChunking at hi
    rw [docChunkingAux_nil cs ov _ (by omega)] at hi
    simp at hi
  | succ n ih =>
    intro doc hN i hi
    by_cases hz : doc = []
    · subst hz
      unfold docChunking at hi
      rw [docChunkingAux_nil cs ov _ (by omega)] at hi
      simp at hi
    · by_cases hle : doc.length ≤ cs
      · rw [docChunking_small cs ov h doc hle hz] at hi ⊢
        have hi0 : i = 0 := by simpa using hi
        subst hi0
        simp [List.take_of_length_le hle]
      · push_neg at hle
        rw [docChunking_large cs ov h doc hle] at hi ⊢
        cases i with
        | zero => simp
        | succ j =>
          have hj : j < (docChunking cs ov (doc.drop (cs - ov))).length := by
            simpa using hi
          have hrec := ih (doc.drop (cs - ov))
            (by rw [List.length_drop]; omega) j hj
          rw [List.getD_cons_succ, hrec, List.drop_drop, Nat.succ_mul,
            Nat.add_comm (cs - ov) (j * (cs - ov))]

lemma docChunking_cover (cs ov : Nat) (h : ov < cs) :
    ∀ (N : Nat) (doc : List Char), doc.length ≤ N →
      ∀ p, p < doc.length →
        ∃ i, i < (docChunking cs ov doc).length ∧ i * (cs - ov) ≤ p ∧
          p < i * (cs - ov) + ((docChunking cs ov doc).getD i []).length := by
  intro N
  induction N with
  | zero =>
    intro doc hN p hp
    omega
  | succ n ih =>
    intro doc hN p hp
    have hz : doc ≠ [] := by
      intro e; subst e; simp at hp
    by_cases hle : doc.length ≤ cs
    · refine ⟨0, ?_, ?_, ?_⟩
      · rw [docChunking_small cs ov h doc hle hz]; simp
      · simp
      · rw [docChunking_small cs ov h doc hle hz]; simpa using hp
    · push_neg at hle
      rw [docChunking_large cs ov h doc hle]
      by_cases hp0 : p < cs - ov
      · refine ⟨0, by simp, by simp, ?_⟩
        have : (doc.take cs).length = cs := by
          rw [List.length_take]; omega
        simp only [List.getD_cons_zero, this]
        omega
      · push_neg at hp0
        obtain ⟨i, hi, hlo, hhi⟩ := ih (doc.drop (cs - ov))
          (by rw [List.length_drop]; omega)
          (p - (cs - ov)) (by rw [List.length_drop]; omega)
        refine ⟨i + 1, ?_, ?_, ?_⟩
        · simpa using hi
        · rw [Nat.succ_mul]; omega
        · rw [List.getD_cons_succ, Nat.succ_mul]
          omega

lemma docChunking_full (cs ov : Nat) (h : ov < cs) :
    ∀ (N : Nat) (doc : List Char), doc.length ≤ N →
      ∀ i, i + 1 < (docChunking cs ov doc).length →
        ((docChunking cs ov doc).getD i []).length = cs := by
  intro N
  induction N with
  | zero =>
    intro doc hN i hi
    have hd : doc = [] := List.length_eq_zero.mp (Nat.le_zero.mp hN)
    subst hd
    unfold docChunking at hi
    rw [docChunkingAux_nil cs ov _ (by omega)] at hi
    simp at hi
  | succ n ih =>
    intro doc hN i hi
    by_cases hz : doc = []
    · subst hz
      unfold docChunking at hi
      rw [docChunkingAux_nil cs ov _ (by omega)] at hi
      simp at hi
    · by_cases hle : doc.length ≤ cs
      · rw [docChunking_small cs ov h doc hle hz] at hi
        simp at hi
      · push_neg at hle
        rw [docChunking_large cs ov h doc hle] at hi ⊢
        cases i with
        | zero =>
          simp only [List.getD_cons_zero]
          rw [List.length_take]; omega
        | succ j =>
          rw [List.getD_cons_succ]
          apply ih (doc.drop (cs - ov)) (by rw [List.length_drop]; omega)
          simpa using hi

lemma docChunking_overlap (cs ov : Nat) (h : ov < cs) (doc : List Char) (i : Nat)
    (hi : i + 1 < (docChunking cs ov doc).length) :
    ((docChunking cs ov doc).getD i []).drop (cs - ov) =
      ((docChunking cs ov doc).getD (i + 1) []).take ov ∧
    (((docChunking cs ov doc).getD i []).drop (cs - ov)).length = ov := by
  have hgi := docChunking_getD cs ov h doc.length doc le_rfl i (by omega)
  have hgi1 := docChunking_getD cs ov h doc.length doc le_rfl (i + 1) hi
  have hfull := docChunking_full cs ov h doc.length doc le_rfl i hi
  constructor
  · rw [hgi, hgi1, List.drop_take, List.take_take, List.drop_drop]
    rw [(by omega : cs - (cs - ov) = ov), (by omega : min ov cs = ov)]
    rw [Nat.succ_mul]
  · rw [List.length_drop, hfull]
    omega

/-- C8: for all valid parameters with 1 <= overlap < chunk_size, the chunks of
a document (i) are exactly the spans starting at multiples of
chunk_size - overlap, (ii) cover every character position with no gaps,
(iii) all have length chunk_size except possibly the final chunk, and
(iv) consecutive chunks share a span of exactly overlap characters. -/
theorem c8_chunk_coverage (cs ov : Nat) (doc : List Char) (_h1 : 1 ≤ ov) (h2 : ov < cs) :
    (∀ i, i < (docChunking cs ov doc).length →
        (docChunking cs ov doc).getD i [] = (doc.drop (i * (cs - ov))).take cs) ∧
    (∀ p, p < doc.length → ∃ i, i < (docChunking cs ov doc).length ∧
        i * (cs - ov) ≤ p ∧ p < i * (cs - ov) + ((docChunking cs ov doc).getD i []).length) ∧
    (∀ i, i + 1 < (docChunking cs ov doc).length →
        ((docChunking cs ov doc).getD i []).length = cs) ∧
    (∀ i, i + 1 < (docChunking cs ov doc).length →
        ((docChunking cs ov doc).getD i []).drop (cs - ov) =
          ((docChunking cs ov doc).getD (i + 1) []).take ov ∧
        (((docChunking cs ov doc).getD i []).drop (cs - ov)).length = ov) :=
  ⟨fun i hi => docChunking_getD cs ov h2 doc.length doc le_rfl i hi,
   fun p hp => docChunking_cover cs ov h2 doc.length doc le_rfl p hp,
   fun i hi => docChunking_full cs ov h2 doc.length doc le_rfl i hi,
   fun i hi => docChunking_overlap cs ov h2 doc i hi⟩
/-- C8 (witness): the chunk coverage theorem at chunk_size=3, overlap=1 on
the concrete document. -/
theorem c8_witness :
    1 ≤ 1 ∧ 1 < 3 ∧
    ((∀ i, i < (docChunking 3 1 fileB.content.toList).length →
        (docChunking 3 1 fileB.content.toList).getD i []
          = (fileB.content.toList.drop (i * (3 - 1))).take 3) ∧
     (∀ p, p < fileB.content.toList.length →
        ∃ i, i < (docChunking 3 1 fileB.content.toList).length ∧
          i * (3 - 1) ≤ p ∧
          p < i * (3 - 1) + ((docChunking 3 1 fileB.content.toList).getD i []).length) ∧
     (∀ i, i + 1 < (docChunking 3 1 fileB.content.toList).length →
        ((docChunking 3 1 fileB.content.toList).getD i []).length = 3) ∧
     (∀ i, i + 1 < (docChunking 3 1 fileB.content.toList).length →
        ((docChunking 3 1 fileB.content.toList).getD i []).drop (3 - 1)
          = ((docChunking 3 1 fileB.content.toList).getD (i + 1) []).take 1 ∧
        (((docChunking 3 1 fileB.content.toList).getD i []).drop (3 - 1)).length = 1)) :=
  ⟨by decide, by decide, c8_chunk_coverage 3 1 fileB.content.toList (by decide) (by decide)⟩

/-- C2 (counterexample): re-uploading the same file name with different
chunking parameters does not leave the chunks of the second parameterization:
the second upload is skipped by the processed_files guard (line 46), so the
KnowledgeBase still holds the chunks produced with the first parameters, and
those differ from what the second parameters would produce. -/
theorem c2_counterexample :
    (uploadStep (uploadStep initState fileB 3 1 true).1 fileB 4 2 true).2
      = UploadOutcome.skipped ∧
    (uploadStep (uploadStep initState fileB 3 1 true).1 fileB 4 2 true).1.collection
      = [(fileB.name, docChunking 3 1 fileB.content.toList)] ∧
    docChunking 3 1 fileB.content.toList ≠ docChunking 4 2 fileB.content.toList := by
  decide

/-- C2 (amended): re-uploading a document whose file name is already in
processed_files is a no-op: the handler body is skipped entirely, so the
KnowledgeBase keeps exactly the chunk set of the first upload and the new
chunking parameters never take effect. -/
theorem c2_reupload_skipped (s : SessionState) (f : UploadedFile) (cs ov : Nat) (ok : Bool)
    (h : f.name ∈ s.processed_files) :
    uploadStep s f cs ov ok = (s, UploadOutcome.skipped) := by
  simp [uploadStep, h]

/-- C2 (witness): after a successful upload of fileB, a second upload of fileB
with different parameters is skipped. -/
theorem c2_witness :
    fileB.name ∈ (uploadStep initState fileB 3 1 true).1.processed_files ∧
    uploadStep (uploadStep initState fileB 3 1 true).1 fileB 5 2 false
      = ((uploadStep initState fileB 3 1 true).1, UploadOutcome.skipped) :=
  ⟨by decide, c2_reupload_skipped (uploadStep initState fileB 3 1 true).1 fileB 5 2 false (by decide)⟩

/-- C4 (counterexample): with chunk_size=100 and overlap=200, both values
inside the widget ranges of lines 37-38 but violating overlap < chunk_size,
indexing is not rejected with any ConfigError: the upload succeeds and the
store is written. -/
theorem c4_counterexample :
    chunkSizeInRange 100 ∧ overlapInRange 200 ∧ 100 ≤ 200 ∧
    (uploadStep initState fileC 100 200 true).2 = UploadOutcome.success ∧
    (uploadStep initState fileC 100 200 true).1.collection
      = [(fileC.name, docChunking 100 200 fileC.content.toList)] := by
  decide

/-- C4 (amended): the sidebar enforces only the widget ranges
chunk_size in [1,5000] and overlap in [1,1000]; no overlap < chunk_size check
exists anywhere, so every in-range pair, including pairs with
overlap >= chunk_size, is accepted: indexing proceeds (temp-file write, load)
and the store is written, with no ConfigError path in the code. -/
theorem c4_no_config_error (s : SessionState) (f : UploadedFile) (cs ov : Nat)
    (_hcs : chunkSizeInRange cs) (_hov : overlapInRange ov)
    (hnew : f.name ∉ s.processed_files) :
    (uploadStep s f cs ov true).2 = UploadOutcome.success ∧
    (uploadStep s f cs ov true).1.collection
      = (f.name, docChunking cs ov f.content.toList)
          :: s.collection.filter (fun e => e.1 != f.name) := by
  simp [uploadStep, hnew]

/-- C4 (witness): the amended theorem at chunk_size=100, overlap=200. -/
theorem c4_witness :
    chunkSizeInRange 100 ∧ overlapInRange 200 ∧ fileB.name ∉ initState.processed_files ∧
    ((uploadStep initState fileB 100 200 true).2 = UploadOutcome.success ∧
     (uploadStep initState fileB 100 200 true).1.collection
       = (fileB.name, docChunking 100 200 fileB.content.toList)
           :: initState.collection.filter (fun e => e.1 != fileB.name)) :=
  ⟨by decide, by decide, by decide,
   c4_no_config_error initState fileB 100 200 (by decide) (by decide) (by decide)⟩

/-- C5 (counterexample): when load fails (text extraction raises), the
handler shows an error, but st.session_state.knowledge_base was already
reassigned on line 53 before load ran, so the agents are constructed and the
analysis UI is rendered: queries can be run against the failed index. -/
theorem c5_counterexample :
    (uploadStep initState fileC 1000 200 false).2 = UploadOutcome.errorShown ∧
    (uploadStep initState fileC 1000 200 false).1.knowledge_base
      = some { path := fileC.content, chunk_size := 1000, overlap := 200 } ∧
    agentsConstructed (uploadStep initState fileC 1000 200 false).1 = true ∧
    analysisUIRendered (uploadStep initState fileC 1000 200 false).1 = true := by
  decide

/-- C5 (amended): if loading a new document fails, the error is surfaced, the
store and the processed_files set are unchanged (previously indexed chunk sets
remain), but knowledge_base has already been reassigned to the new, failed
KnowledgeBase object, so the query UI stays enabled and queries can run
against the failed index. -/
theorem c5_failed_load_state (s : SessionState) (f : UploadedFile) (cs ov : Nat)
    (hnew : f.name ∉ s.processed_files) :
    uploadStep s f cs ov false
      = ({ s with knowledge_base := some { path := f.content, chunk_size := cs, overlap := ov } },
         UploadOutcome.errorShown) ∧
    (uploadStep s f cs ov false).1.collection = s.collection ∧
    (uploadStep s f cs ov false).1.processed_files = s.processed_files ∧
    agentsConstructed (uploadStep s f cs ov false).1 = true := by
  simp [uploadStep, agentsConstructed, hnew]

/-- C5 (witness): the amended theorem at a concrete failing upload. -/
theorem c5_witness :
    fileB.name ∉ initState.processed_files ∧
    (uploadStep initState fileB 1000 200 false
      = ({ initState with
            knowledge_base := some { path := fileB.content, chunk_size := 1000, overlap := 200 } },
         UploadOutcome.errorShown) ∧
     (uploadStep initState fileB 1000 200 false).1.collection = initState.collection ∧
     (uploadStep initState fileB 1000 200 false).1.processed_files = initState.processed_files ∧
     agentsConstructed (uploadStep initState fileB 1000 200 false).1 = true) :=
  ⟨by decide, c5_failed_load_state initState fileB 1000 200 (by decide)⟩

/-- C10 (counterexample): a session in which no document was ever successfully
uploaded (processed_files is still empty, the only upload ended in an error)
but the four agents are nevertheless constructed and the analysis UI is
rendered, because the failed upload already set knowledge_base. -/
theorem c10_counterexample :
    (uploadStep initState fileB 1000 200 false).1.processed_files = [] ∧
    (uploadStep initState fileB 1000 200 false).2 ≠ UploadOutcome.success ∧
    agentsConstructed (uploadStep initState fileB 1000 200 false).1 = true ∧
    analysisUIRendered (uploadStep initState fileB 1000 200 false).1 = true := by
  decide

/-- C10 (amended): while st.session_state.knowledge_base is None (its initial
value), none of the four agents is constructed and the analysis-type selector
and Analyze button are not rendered; being None is however not equivalent to
no-successful-upload, since a failed upload also sets knowledge_base. -/
theorem c10_no_kb_no_agents (s : SessionState) (h : s.knowledge_base = none) :
    agentsConstructed s = false ∧ analysisUIRendered s = false := by
  simp [agentsConstructed, analysisUIRendered, h]

/-- C10 (witness): the amended theorem at the initial session state. -/
theorem c10_witness :
    initState.knowledge_base = none ∧
    (agentsConstructed initState = false ∧ analysisUIRendered initState = false) :=
  ⟨rfl, c10_no_kb_no_agents initState rfl⟩
/-- C1 (counterexample): with deterministic stub agents, exactly one text is
passed to team_lead, and it is not the bare labeled concatenation of the
three responses: the prompt the code builds additionally wraps them in a
fixed instruction preamble and a fixed trailing instruction. -/
theorem c1_counterexample :
    ((get_response stubAgents queryA).2.map Prod.fst)
      = [AgentName.legalResearcher, AgentName.contractAnalyst,
         AgentName.strategyAgent, AgentName.teamLead] ∧
    ((get_response stubAgents queryA).2.map Prod.snd).getD 3 emptyText
      ≠ labeledConcatSpec stubResearchText stubContractText stubStrategyText := by
  decide

/-- C1 (amended): whenever the three analysis agents succeed on a query, the
one text passed to team_lead contains the three responses each under its
labeled header, in the fixed order Researcher, ContractAnalyst,
StrategyAgent, wrapped between a fixed instruction preamble and a fixed
trailing instruction; the prompt is a function of the three response texts
alone, hence independent of how or in which order they were produced. -/
theorem c1_synthesis_input (ag : Agents) (q r c s : String)
    (hr : ag.legal_researcher q = Except.ok r)
    (hc : ag.contract_analyst q = Except.ok c)
    (hs : ag.strategy_agent q = Except.ok s) :
    (get_response ag q).2
      = [(AgentName.legalResearcher, q), (AgentName.contractAnalyst, q),
         (AgentName.strategyAgent, q),
         (AgentName.teamLead,
          "Summarize and integrate the following insights gathered using the full contract data:\n\n" ++
          "Legal Researcher Response:\n" ++ r ++ "\n" ++
          "Contract Analyst Response:\n" ++ c ++ "\n" ++
          "Legal Strategy Response:\n" ++ s ++ "\n" ++
          "Provide a structured legal analysis report that includes key terms, obligations, potential risks and recommendations with references to the document.")] := by
  simp [get_response, hr, hc, hs, synthesisPrompt]

/-- C1 (witness): the amended theorem at the stub agents. -/
theorem c1_witness :
    stubAgents.legal_researcher queryA = Except.ok stubResearchText ∧
    stubAgents.contract_analyst queryA = Except.ok stubContractText ∧
    stubAgents.strategy_agent queryA = Except.ok stubStrategyText ∧
    (get_response stubAgents queryA).2
      = [(AgentName.legalResearcher, queryA), (AgentName.contractAnalyst, queryA),
         (AgentName.strategyAgent, queryA),
         (AgentName.teamLead,
          "Summarize and integrate the following insights gathered using the full contract data:\n\n" ++
          "Legal Researcher Response:\n" ++ stubResearchText ++ "\n" ++
          "Contract Analyst Response:\n" ++ stubContractText ++ "\n" ++
          "Legal Strategy Response:\n" ++ stubStrategyText ++ "\n" ++
          "Provide a structured legal analysis report that includes key terms, obligations, potential risks and recommendations with references to the document.")] :=
  ⟨rfl, rfl, rfl,
   c1_synthesis_input stubAgents queryA stubResearchText stubContractText stubStrategyText rfl rfl rfl⟩

/-- C3: if any one of the three analysis agent calls raises an
InferenceError, get_response propagates an error (the query terminates
failed) and team_lead is never invoked for that query. -/
theorem c3_failure_blocks_synthesis (ag : Agents) (q : String)
    (h : (∃ e, ag.legal_researcher q = Except.error e) ∨
         (∃ e, ag.contract_analyst q = Except.error e) ∨
         (∃ e, ag.strategy_agent q = Except.error e)) :
    (∃ e, (get_response ag q).1 = Except.error e) ∧
    ∀ entry ∈ (get_response ag q).2, entry.1 ≠ AgentName.teamLead := by
  cases hres : ag.legal_researcher q with
  | error e =>
    refine ⟨⟨e, by simp [get_response, hres]⟩, ?_⟩
    intro entry hm
    simp [get_response, hres] at hm
    subst hm
    simp
  | ok r =>
    cases hcon : ag.contract_analyst q with
    | error e =>
      refine ⟨⟨e, by simp [get_response, hres, hcon]⟩, ?_⟩
      intro entry hm
      simp [get_response, hres, hcon] at hm
      rcases hm with hm | hm <;> subst hm <;> simp
    | ok c =>
      cases hstr : ag.strategy_agent q with
      | error e =>
        refine ⟨⟨e, by simp [get_response, hres, hcon, hstr]⟩, ?_⟩
        intro entry hm
        simp [get_response, hres, hcon, hstr] at hm
        rcases hm with hm | hm | hm <;> subst hm <;> simp
      | ok s =>
        exfalso
        rcases h with ⟨e, he⟩ | ⟨e, he⟩ | ⟨e, he⟩
        · rw [hres] at he; simp at he
        · rw [hcon] at he; simp at he
        · rw [hstr] at he; simp at he

/-- C3 (witness): the theorem at stub agents whose Legal Researcher fails. -/
theorem c3_witness :
    (∃ e, failingAgents.legal_researcher queryA = Except.error e) ∧
    ((∃ e, (get_response failingAgents queryA).1 = Except.error e) ∧
     ∀ entry ∈ (get_response failingAgents queryA).2, entry.1 ≠ AgentName.teamLead) :=
  ⟨⟨stubError, rfl⟩,
   c3_failure_blocks_synthesis failingAgents queryA (Or.inl ⟨stubError, rfl⟩)⟩

/-- C6 (counterexample): on an Analyze run in which no output view is
requested at all, the Key Points and Recommendations team_lead calls are
nevertheless made: the tab bodies run unconditionally, so the two extra
synthesis calls do not occur only when the corresponding view is requested. -/
theorem c6_counterexample :
    Tab.keyPoints ∉ ([] : List Tab) ∧ Tab.recommendations ∉ ([] : List Tab) ∧
    (AgentName.teamLead, keyPointsPrompt stubReportText)
      ∈ (analyzeClickWithSelection stubAgents queryA []).2 ∧
    (AgentName.teamLead, recommendationsPrompt stubReportText)
      ∈ (analyzeClickWithSelection stubAgents queryA []).2 := by
  decide

/-- C6 (amended): the Key Points and Recommendations texts are each derived
by one team_lead call whose input is a fixed instruction plus the text of the
full Report only, with no new retrieval and no re-run of the three analysis
agents: on every Analyze run, whatever views are selected, the calls are
exactly the three analysis runs, the report synthesis, and the two derived
synthesis calls, in this order. -/
theorem c6_derived_synthesis (ag : Agents) (q : String) (sel : List Tab)
    (r c s rep k rc : String)
    (hq : q ≠ "")
    (hr : ag.legal_researcher q = Except.ok r)
    (hc : ag.contract_analyst q = Except.ok c)
    (hs : ag.strategy_agent q = Except.ok s)
    (ht0 : ag.team_lead (synthesisPrompt r c s) = Except.ok rep)
    (ht1 : ag.team_lead (keyPointsPrompt rep) = Except.ok k)
    (ht2 : ag.team_lead (recommendationsPrompt rep) = Except.ok rc) :
    (analyzeClickWithSelection ag q sel).2
      = [(AgentName.legalResearcher, q), (AgentName.contractAnalyst, q),
         (AgentName.strategyAgent, q), (AgentName.teamLead, synthesisPrompt r c s),
         (AgentName.teamLead, keyPointsPrompt rep),
         (AgentName.teamLead, recommendationsPrompt rep)] := by
  simp [analyzeClickWithSelection, analyzeClick, get_response, hq, hr, hc, hs, ht0, ht1, ht2]

/-- C6 (witness): the amended theorem at the stub agents with no view
selected. -/
theorem c6_witness :
    (queryA ≠ emptyText) ∧
    (analyzeClickWithSelection stubAgents queryA []).2
      = [(AgentName.legalResearcher, queryA), (AgentName.contractAnalyst, queryA),
         (AgentName.strategyAgent, queryA),
         (AgentName.teamLead, synthesisPrompt stubResearchText stubContractText stubStrategyText),
         (AgentName.teamLead, keyPointsPrompt stubReportText),
         (AgentName.teamLead, recommendationsPrompt stubReportText)] :=
  ⟨by decide,
   c6_derived_synthesis stubAgents queryA [] stubResearchText stubContractText stubStrategyText
     stubReportText stubReportText stubReportText (by decide) rfl rfl rfl rfl rfl rfl⟩

/-- C7 (counterexample): a whitespace-only custom query is not caught by the
blank check, because Python `not query` is false for a nonempty string of
spaces: no warning is shown and all agents are invoked on it. -/
theorem c7_counterexample :
    wsQuery.toList = [' '] ∧
    (analyzeClick stubAgents wsQuery).1.warned = false ∧
    ((analyzeClick stubAgents wsQuery).2.map Prod.fst)
      = [AgentName.legalResearcher, AgentName.contractAnalyst, AgentName.strategyAgent,
         AgentName.teamLead, AgentName.teamLead, AgentName.teamLead] := by
  decide

/-- C7 (amended): an empty custom query never invokes any agent and produces
the user-visible warning; but only the empty string is caught, so a
whitespace-only query is sent to the agents. -/
theorem c7_empty_query_warns (ag : Agents) :
    analyzeClick ag emptyText
      = ({ warned := true, rendered := [], failed := none }, []) := by
  simp [analyzeClick, emptyText]

/-- C9: each of the three output views shows the text of its underlying
team_lead call when that text is nonempty, and its placeholder when the call
returned empty text. -/
theorem c9_view_placeholders (ag : Agents) (q r c s rep k rc : String)
    (hq : q ≠ "")
    (hr : ag.legal_researcher q = Except.ok r)
    (hc : ag.contract_analyst q = Except.ok c)
    (hs : ag.strategy_agent q = Except.ok s)
    (ht0 : ag.team_lead (synthesisPrompt r c s) = Except.ok rep)
    (ht1 : ag.team_lead (keyPointsPrompt rep) = Except.ok k)
    (ht2 : ag.team_lead (recommendationsPrompt rep) = Except.ok rc) :
    (analyzeClick ag q).1.rendered
      = [(Tab.analysis, if rep = "" then noResponseMsg else rep),
         (Tab.keyPoints, if k = "" then noSummaryMsg else k),
         (Tab.recommendations, if rc = "" then noRecommendationsMsg else rc)] := by
  simp [analyzeClick, get_response, hq, hr, hc, hs, ht0, ht1, ht2]

/-- C9 (witness): with agents whose calls all return empty text, each view
shows its own placeholder. -/
theorem c9_witness :
    (queryA ≠ "") ∧
    (analyzeClick emptyReplyAgents queryA).1.rendered
      = [(Tab.analysis, if emptyText = "" then noResponseMsg else emptyText),
         (Tab.keyPoints, if emptyText = "" then noSummaryMsg else emptyText),
         (Tab.recommendations, if emptyText = "" then noRecommendationsMsg else emptyText)] :=
  ⟨by decide,
   c9_view_placeholders emptyReplyAgents queryA emptyText emptyText emptyText emptyText
     emptyText emptyText (by decide) rfl rfl rfl rfl rfl rfl⟩
